import Mathlib

/-!
Shallow embedding of the gameplay core of `hppr` (src/main.rs): the tile
classifier, the ground/ladder/pad contact tracking, the movement system and
the camera fitter.  Physics numbers (velocities, offsets, extents) are
modelled as rationals — every constant the code manipulates (100, 200, 350,
9, 12.1, 0.1, …) is exactly representable, so float rounding never enters the
statements.  Entities are natural numbers; the `HashSet<Entity>` of
overlapped ladders is a `Finset ℕ`.
-/

namespace Hppr

/-- A 3-component vector (`bevy` `Vec3`), with exact rational components. -/
structure Vec3 where
  x : ℚ
  y : ℚ
  z : ℚ
deriving DecidableEq, Repr

instance : Add Vec3 := ⟨fun u v => ⟨u.x + v.x, u.y + v.y, u.z + v.z⟩⟩

/-- `heron` `Velocity` component; only the `linear` part is ever used by the
game code. -/
structure Velocity where
  linear : Vec3
deriving DecidableEq, Repr

/-- `bevy` `Transform`; only `translation` is read by the game code. -/
structure Transform where
  translation : Vec3
deriving DecidableEq, Repr

/-- The `Player` component of src/main.rs: ground flag, ladder-climb flag and
the set of ladder entities currently overlapped. -/
structure Player where
  onGround : Bool
  onLadder : Bool
  overLadders : Finset ℕ
deriving DecidableEq

/-- The key state sampled by `movement`: `pressed` (held) state of D, A, W, S
and the edge-triggered `just_pressed` state of Space. -/
structure InputState where
  dPressed : Bool
  aPressed : Bool
  wPressed : Bool
  sPressed : Bool
  spaceJustPressed : Bool
deriving DecidableEq, Repr

/-- Write the x component of a linear velocity. -/
def Velocity.withX (v : Velocity) (q : ℚ) : Velocity :=
  { v with linear := { v.linear with x := q } }

/-- Write the y component of a linear velocity. -/
def Velocity.withY (v : Velocity) (q : ℚ) : Velocity :=
  { v with linear := { v.linear with y := q } }

/-- First statement of `movement` (src/main.rs:269-271):
`velocity.linear.x = (right - left) * 100`. -/
def movementHorizontal (inp : InputState) (st : Velocity × Player) :
    Velocity × Player :=
  let right : ℚ := if inp.dPressed then 1 else 0
  let left : ℚ := if inp.aPressed then 1 else 0
  (st.1.withX ((right - left) * 100), st.2)

/-- Ladder-climb statement of `movement` (src/main.rs:272-276): while
`on_ladder`, `velocity.linear.y = (up - down) * 100`. -/
def movementClimb (inp : InputState) (st : Velocity × Player) :
    Velocity × Player :=
  if st.2.onLadder then
    let up : ℚ := if inp.wPressed then 1 else 0
    let down : ℚ := if inp.sPressed then 1 else 0
    (st.1.withY ((up - down) * 100), st.2)
  else st

/-- Jump statement of `movement` (src/main.rs:277-280): if on ground or on a
ladder and Space was just pressed, `velocity.linear.y = 200` and the ladder
flag is cleared. -/
def movementJump (inp : InputState) (st : Velocity × Player) :
    Velocity × Player :=
  if (st.2.onGround || st.2.onLadder) && inp.spaceJustPressed then
    (st.1.withY 200, { st.2 with onLadder := false })
  else st

/-- Ladder-engagement statement of `movement` (src/main.rs:281-285): clear
`on_ladder` when no ladder is overlapped, otherwise set it when W or S is
held. -/
def movementEngage (inp : InputState) (st : Velocity × Player) :
    Velocity × Player :=
  if st.2.overLadders = ∅ then (st.1, { st.2 with onLadder := false })
  else if inp.wPressed || inp.sPressed then
    (st.1, { st.2 with onLadder := true })
  else st

/-- The body of the `movement` system (src/main.rs:266-287) for the single
player matched by the query, in source statement order. -/
def movement (inp : InputState) (st : Velocity × Player) : Velocity × Player :=
  movementEngage inp (movementJump inp (movementClimb inp
    (movementHorizontal inp st)))

/-- Embeds bevy's `Query::get_single_mut`, used by every per-frame system of
src/main.rs: the call returns `Ok` exactly when the query matches a single
entity, and `Err(NoEntities)` / `Err(MultipleEntities)` otherwise. -/
def getSingle {α : Type} : List α → Option α
  | [a] => some a
  | _ => none

/-- The `movement` system (src/main.rs:266) over the rows matched by
`Query<(&mut Velocity, &mut Player)>`: the single matched row is updated in
place, any other row count leaves the world untouched. -/
def movementSystem (inp : InputState) (players : List (Velocity × Player)) :
    List (Velocity × Player) :=
  match getSingle players with
  | some st => [movement inp st]
  | none => players

/-- Modelled from the spec: the physics collaborator
"supports on-demand ray casts (origin, direction, solid-only filter)
returning nearest hit or none" (§6); the hit is abstracted to the entity
that was struck. -/
structure PhysicsWorld where
  rayCast : Vec3 → Vec3 → Bool → Option ℕ

/-- Body of `ground_detection` (src/main.rs:203-223): two downward ray casts
from the player's feet, offset (±9, −12.1), direction (0, −2), solid filter
`true`; `on_ground` is their disjunction. -/
def groundDetection (w : PhysicsWorld) (t : Transform) (p : Player) : Player :=
  { p with onGround :=
      (w.rayCast (t.translation + ⟨9, -12.1, 0⟩) ⟨0, -2, 0⟩ true).isSome
      || (w.rayCast (t.translation + ⟨-9, -12.1, 0⟩) ⟨0, -2, 0⟩ true).isSome }

/-- The `ground_detection` system over the rows matched by
`Query<(&Transform, &mut Player)>`. -/
def groundDetectionSystem (w : PhysicsWorld)
    (players : List (Transform × Player)) : List (Transform × Player) :=
  match getSingle players with
  | some (t, p) => [(t, groundDetection w t p)]
  | none => players

/-- A `heron` `CollisionEvent`, with each `CollisionData` participant
abstracted to its `rigid_body_entity()`. -/
inductive CollisionEvent where
  | started (a b : ℕ)
  | stopped (a b : ℕ)
deriving DecidableEq, Repr

/-- The tag queries `Query<&Ladder>` / `Query<&Pad>` of
`ladder_and_pad_detection`: which entities carry the `Ladder` / `Pad`
marker component (`Query::contains`). -/
structure TagWorld where
  isLadder : ℕ → Bool
  isPad : ℕ → Bool

/-- The per-event match of `ladder_and_pad_detection` (src/main.rs:233-261),
`pe` being the player entity: on a begin contact whose other side is a
ladder, insert it into `over_ladders`; a pad, set `velocity.linear.y = 350`;
on an end contact whose other side is a ladder, remove it.  The guard on the
first participant is tried before the guard on the second, as in the source
`match` arms. -/
def processEvent (tags : TagWorld) (pe : ℕ) (st : Velocity × Player) :
    CollisionEvent → Velocity × Player
  | .started a b =>
    if pe = a then
      ((if tags.isPad b then st.1.withY 350 else st.1),
       (if tags.isLadder b then
          { st.2 with overLadders := insert b st.2.overLadders } else st.2))
    else if pe = b then
      ((if tags.isPad a then st.1.withY 350 else st.1),
       (if tags.isLadder a then
          { st.2 with overLadders := insert a st.2.overLadders } else st.2))
    else st
  | .stopped a b =>
    if pe = a then
      (st.1,
       (if tags.isLadder b then
          { st.2 with overLadders := st.2.overLadders.erase b } else st.2))
    else if pe = b then
      (st.1,
       (if tags.isLadder a then
          { st.2 with overLadders := st.2.overLadders.erase a } else st.2))
    else st

/-- The `ladder_and_pad_detection` system (src/main.rs:225-264) over the rows
matched by `Query<(&mut Velocity, &mut Player, Entity)>`: the event batch is
consumed in delivery order, and `get_single_mut` is re-queried for each
event, as in the source loop. -/
def ladderAndPadDetection (tags : TagWorld) (events : List CollisionEvent)
    (players : List (Velocity × Player × ℕ)) : List (Velocity × Player × ℕ) :=
  events.foldl (fun ps ev =>
    match getSingle ps with
    | some (v, p, e) =>
      [((processEvent tags e (v, p) ev).1, (processEvent tags e (v, p) ev).2, e)]
    | none => ps) players

/-- `heron` `CollisionShape`; the game only ever builds cuboids, so only the
`Cuboid { half_extends, border_radius }` constructor is embedded. -/
inductive CollisionShape where
  | cuboid (halfExtends : Vec3) (borderRadius : Option ℚ)
deriving DecidableEq, Repr

/-- Modelled from the spec: the library default `CollisionShape`, the
"degenerate/zero" shape of the §4.1 table row for unmapped codes. -/
def CollisionShape.libDefault : CollisionShape := .cuboid ⟨0, 0, 0⟩ none

/-- `heron` `RigidBody` kinds. -/
inductive RigidBody where
  | dynamic
  | static
  | kinematicPositionBased
  | kinematicVelocityBased
  | sensor
deriving DecidableEq, Repr

/-- Modelled from the spec: the library default `RigidBody` used by
`..Default::default()`.  The §4.1 table lists the bundle of any unmapped
code as "Static(default)", so the default kind is taken to be `Static`. -/
def RigidBody.libDefault : RigidBody := .static

/-- Modelled from the spec: `heron` `RotationConstraints`, reduced to the
"rotation-locked: bool" field of the §3 CollisionDescriptor; the library
default allows rotation, `RotationConstraints::lock()` forbids it. -/
structure RotationConstraints where
  locked : Bool
deriving DecidableEq, Repr

/-- The library default rotation constraint: rotation allowed. -/
def RotationConstraints.libDefault : RotationConstraints := ⟨false⟩

/-- `RotationConstraints::lock()`. -/
def RotationConstraints.lock : RotationConstraints := ⟨true⟩

/-- `heron` `PhysicMaterial`, reduced to the `friction` field, the only one
the game code sets. -/
structure PhysicMaterial where
  friction : ℚ
deriving DecidableEq, Repr

/-- Modelled from the spec: the library default `PhysicMaterial`.  The exact
default friction is library-internal and never observed by the game; the
theorems below only ever compare materials against this default, never
against its numeric value. -/
def PhysicMaterial.libDefault : PhysicMaterial := ⟨1 / 2⟩

/-- The `CollisionBundle` of src/main.rs:83-89. -/
structure CollisionBundle where
  collisionShape : CollisionShape
  rigidBody : RigidBody
  rotationConstraints : RotationConstraints
  physicMaterial : PhysicMaterial
deriving DecidableEq, Repr

/-- `CollisionBundle::default()`: every field at its library default. -/
def CollisionBundle.libDefault : CollisionBundle :=
  ⟨CollisionShape.libDefault, RigidBody.libDefault,
   RotationConstraints.libDefault, PhysicMaterial.libDefault⟩

/-- `impl From<IntGridCell> for CollisionBundle` (src/main.rs:90-124),
matching on `int_grid_cell.value` (an `i32`, embedded as `ℤ`). -/
def collisionBundleOfIntGridCell (value : ℤ) : CollisionBundle :=
  if value = 1 then
    { CollisionBundle.libDefault with
      collisionShape := .cuboid ⟨9, 9, 0⟩ none
      rigidBody := .static
      physicMaterial := { PhysicMaterial.libDefault with friction := 0.1 } }
  else if value = 2 then
    { CollisionBundle.libDefault with
      collisionShape := .cuboid ⟨9, 9, 0⟩ none
      rigidBody := .sensor }
  else if value = 3 then
    { CollisionBundle.libDefault with
      collisionShape := .cuboid ⟨9, 5, 0⟩ none
      rigidBody := .sensor }
  else CollisionBundle.libDefault

/-- `impl From<EntityInstance> for CollisionBundle` (src/main.rs:125-136):
the player entity's bundle, a 10×12 cuboid with rotation locked. -/
def collisionBundleOfEntityInstance : CollisionBundle :=
  { CollisionBundle.libDefault with
    collisionShape := .cuboid ⟨10, 12, 0⟩ none
    rotationConstraints := RotationConstraints.lock }

/-- `bevy` `ScalingMode`; only the `None` variant is written by the game. -/
inductive ScalingMode where
  | scalingNone
  | windowSize
deriving DecidableEq, Repr

/-- `bevy` `OrthographicProjection`, reduced to the fields `fit_camera`
writes. -/
structure OrthographicProjection where
  left : ℚ
  right : ℚ
  bottom : ℚ
  top : ℚ
  scalingMode : ScalingMode
deriving DecidableEq, Repr

/-- An LDtk level's pixel size (`level.px_wid` / `level.px_hei`, `i32`). -/
structure Level where
  pxWid : ℤ
  pxHei : ℤ
deriving DecidableEq, Repr

/-- Body of `fit_camera` (src/main.rs:55-81): given window width/height and
the level found for the current selection (or `none` when no loaded level
matches), pin the origin at (0,0) and grow the extents to contain the level
at the window's aspect.  `.round()` on a nonnegative `f32` agrees with
Mathlib's `round` on ℚ. -/
def fitCamera (windowWidth windowHeight : ℚ)
    (proj : OrthographicProjection) (level : Option Level) :
    OrthographicProjection :=
  let windowAspect := windowWidth / windowHeight
  match level with
  | none => proj
  | some lvl =>
    let levelAspect := (lvl.pxWid : ℚ) / (lvl.pxHei : ℚ)
    if levelAspect < windowAspect then
      { proj with
        scalingMode := .scalingNone, bottom := 0, left := 0
        right := ((round ((lvl.pxHei : ℚ) * windowAspect) : ℤ) : ℚ)
        top := (lvl.pxHei : ℚ) }
    else
      { proj with
        scalingMode := .scalingNone, bottom := 0, left := 0
        top := ((round ((lvl.pxWid : ℚ) / windowAspect) : ℤ) : ℚ)
        right := (lvl.pxWid : ℚ) }

theorem getSingle_eq_none {α : Type} (l : List α) (h : l.length ≠ 1) :
    getSingle l = none := by
  match l with
  | [] => rfl
  | [a] => exact absurd rfl h
  | a :: b :: t => rfl

theorem ladderAndPadDetection_of_length_ne_one (tags : TagWorld)
    (events : List CollisionEvent) (ps : List (Velocity × Player × ℕ))
    (h : ps.length ≠ 1) : ladderAndPadDetection tags events ps = ps := by
  induction events with
  | nil => rfl
  | cons e evs ih =>
    have hstep :
        (match getSingle ps with
          | some (v, p, e') =>
            [((processEvent tags e' (v, p) e).1,
              (processEvent tags e' (v, p) e).2, e')]
          | none => ps) = ps := by
      rw [getSingle_eq_none ps h]
    calc List.foldl _ ps (e :: evs) = ladderAndPadDetection tags evs ps := by
          simp only [ladderAndPadDetection, List.foldl_cons]
          rw [hstep]
      _ = ps := ih

theorem movementHorizontal_player (inp : InputState) (st : Velocity × Player) :
    (movementHorizontal inp st).2 = st.2 := rfl

theorem movementClimb_player (inp : InputState) (st : Velocity × Player) :
    (movementClimb inp st).2 = st.2 := by
  unfold movementClimb; split_ifs <;> rfl

theorem movementClimb_velocity_x (inp : InputState) (st : Velocity × Player) :
    (movementClimb inp st).1.linear.x = st.1.linear.x := by
  unfold movementClimb; split_ifs <;> rfl

theorem movementJump_velocity_x (inp : InputState) (st : Velocity × Player) :
    (movementJump inp st).1.linear.x = st.1.linear.x := by
  unfold movementJump; split_ifs <;> rfl

theorem movementJump_overLadders (inp : InputState) (st : Velocity × Player) :
    (movementJump inp st).2.overLadders = st.2.overLadders := by
  unfold movementJump; split_ifs <;> rfl

theorem movementJump_onGround (inp : InputState) (st : Velocity × Player) :
    (movementJump inp st).2.onGround = st.2.onGround := by
  unfold movementJump; split_ifs <;> rfl

theorem movementEngage_velocity (inp : InputState) (st : Velocity × Player) :
    (movementEngage inp st).1 = st.1 := by
  unfold movementEngage; split_ifs <;> rfl

theorem movementEngage_overLadders (inp : InputState) (st : Velocity × Player) :
    (movementEngage inp st).2.overLadders = st.2.overLadders := by
  unfold movementEngage; split_ifs <;> rfl

theorem movementEngage_onLadder (inp : InputState) (st : Velocity × Player) :
    (movementEngage inp st).2.onLadder =
      (if st.2.overLadders = ∅ then false
       else if inp.wPressed || inp.sPressed then true
       else st.2.onLadder) := by
  unfold movementEngage; split_ifs <;> rfl

/-- Claim C9: each tick, `movement` sets the horizontal velocity to
(rightHeld − leftHeld) × 100 — 0 when both or neither of D/A are held, 100
for D only, −100 for A only — whatever the rest of the input and player
state. -/
theorem c9_horizontal_velocity (inp : InputState) (v : Velocity) (p : Player) :
    (movement inp (v, p)).1.linear.x =
      ((if inp.dPressed then (1 : ℚ) else 0)
        - (if inp.aPressed then (1 : ℚ) else 0)) * 100 := by
  rw [movement, movementEngage_velocity, movementJump_velocity_x,
    movementClimb_velocity_x]
  rfl

/-- Claim C3: `ground_detection` sets `on_ground` to the disjunction of the
two downward ray casts at offsets (±9, −12.1) with direction (0, −2) and the
solid filter, and the previous value of `on_ground` (or any other player
state) has no influence on the result. -/
theorem c3_ground_detection (w : PhysicsWorld) (t : Transform) (p q : Player) :
    (groundDetection w t p).onGround =
      ((w.rayCast (t.translation + ⟨9, -12.1, 0⟩) ⟨0, -2, 0⟩ true).isSome
        || (w.rayCast (t.translation + ⟨-9, -12.1, 0⟩) ⟨0, -2, 0⟩ true).isSome)
    ∧ (groundDetection w t p).onGround = (groundDetection w t q).onGround :=
  ⟨rfl, rfl⟩

/-- Claim C10: collision handling is symmetric in the order of the two
participants — swapping the bodies of a begin or end contact event yields
the same velocity and ladder-set effect. -/
theorem c10_event_symmetry (tags : TagWorld) (pe : ℕ) (st : Velocity × Player)
    (a b : ℕ) :
    processEvent tags pe st (.started a b) = processEvent tags pe st (.started b a)
    ∧ processEvent tags pe st (.stopped a b) =
        processEvent tags pe st (.stopped b a) := by
  constructor <;>
  · rcases eq_or_ne pe a with h1 | h1
    · rcases eq_or_ne pe b with h2 | h2
      · subst h1; subst h2; rfl
      · subst h1
        simp only [processEvent, if_pos rfl, if_neg (Ne.symm h2),
          if_neg h2]
    · rcases eq_or_ne pe b with h2 | h2
      · subst h2
        simp only [processEvent, if_pos rfl, if_neg (Ne.symm h1),
          if_neg h1]
      · simp only [processEvent, if_neg h1, if_neg h2]

theorem movementPre_player (inp : InputState) (v : Velocity) (p : Player) :
    (movementClimb inp (movementHorizontal inp (v, p))).2 = p := by
  rw [movementClimb_player, movementHorizontal_player]

/-- Input used to exhibit the jump/engagement interaction: W held, Space just
pressed. -/
def c1Input : InputState := ⟨false, false, true, false, true⟩

/-- A player climbing a ladder (entity 7 overlapped). -/
def c1Player : Player := ⟨false, true, {7}⟩

/-- A player at rest. -/
def c1Velocity : Velocity := ⟨⟨0, 0, 0⟩⟩

/-- Claim C1, counterexample: with `onLadder = true`, Space just pressed, W
held and ladder 7 still overlapped, the tick ends with `onLadder = true` —
the engagement statement (src/main.rs:283-284) runs after the jump cleared
the flag and sets it back, so "onLadder is false at the end of that same
tick, for every combination of the other inputs and every contents of
overlappingLadders" is false. -/
theorem c1_counterexample :
    c1Player.onLadder = true ∧ c1Input.spaceJustPressed = true
    ∧ (movement c1Input (c1Velocity, c1Player)).2.onLadder = true := by
  decide

/-- Claim C1, amended: if the player is on the ground or on a ladder and the
jump key was just pressed, the tick ends with vertical velocity 200 for every
combination of the other inputs and ladder overlaps; `onLadder` ends false
unless `overlappingLadders` is non-empty and up or down is held, in which
case the engagement step re-sets it to true after the jump cleared it. -/
theorem c1_jump_amended (inp : InputState) (v : Velocity) (p : Player)
    (hg : (p.onGround || p.onLadder) = true)
    (hj : inp.spaceJustPressed = true) :
    (movement inp (v, p)).1.linear.y = 200
    ∧ ((movement inp (v, p)).2.onLadder = true ↔
        p.overLadders ≠ ∅ ∧ (inp.wPressed = true ∨ inp.sPressed = true)) := by
  have hJfalse : (movementJump inp (movementClimb inp
      (movementHorizontal inp (v, p)))).2.onLadder = false := by
    unfold movementJump
    rw [movementPre_player, hg, hj]
    rfl
  constructor
  · rw [movement, movementEngage_velocity]
    unfold movementJump
    rw [movementPre_player, hg, hj]
    rfl
  · rw [movement, movementEngage_onLadder, movementJump_overLadders,
      movementPre_player, hJfalse]
    split_ifs with h1 h2 <;> simp_all

/-- Witness for the amended claim C1 at a concrete grounded player. -/
theorem c1_witness :
    ((⟨true, false, ∅⟩ : Player).onGround || (⟨true, false, ∅⟩ : Player).onLadder) = true
    ∧ c1Input.spaceJustPressed = true
    ∧ (movement c1Input (c1Velocity, ⟨true, false, ∅⟩)).1.linear.y = 200 :=
  ⟨by decide, by decide,
    (c1_jump_amended c1Input c1Velocity ⟨true, false, ∅⟩ (by decide) (by decide)).1⟩

/-- Claim C2: after a `movement` tick the overlap set is unchanged; the final
`onLadder` is false when the overlap set is empty, true when it is non-empty
and W or S is held, and otherwise the value left by the jump statement; hence
a final `onLadder = true` implies a non-empty overlap set. -/
theorem c2_ladder_engagement (inp : InputState) (v : Velocity) (p : Player) :
    (movement inp (v, p)).2.overLadders = p.overLadders
    ∧ (movement inp (v, p)).2.onLadder =
        (if p.overLadders = ∅ then false
         else if inp.wPressed || inp.sPressed then true
         else (movementJump inp (movementClimb inp
            (movementHorizontal inp (v, p)))).2.onLadder)
    ∧ ((movement inp (v, p)).2.onLadder = true →
        (movement inp (v, p)).2.overLadders ≠ ∅) := by
  have hOver : (movement inp (v, p)).2.overLadders = p.overLadders := by
    rw [movement, movementEngage_overLadders, movementJump_overLadders,
      movementPre_player]
  refine ⟨hOver, ?_, ?_⟩
  · rw [movement, movementEngage_onLadder, movementJump_overLadders,
      movementPre_player]
  · intro h
    rw [movement, movementEngage_onLadder, movementJump_overLadders,
      movementPre_player] at h
    rw [hOver]
    intro hemp
    rw [if_pos hemp] at h
    exact Bool.false_ne_true h

/-- Input with W held only. -/
def c2Input : InputState := ⟨false, false, true, false, false⟩

/-- A player overlapping ladder 3, not yet climbing. -/
def c2Player : Player := ⟨false, false, {3}⟩

/-- Witness for claim C2: a concrete tick that ends with `onLadder = true`
indeed has a non-empty overlap set. -/
theorem c2_witness :
    (movement c2Input (c1Velocity, c2Player)).2.onLadder = true
    ∧ (movement c2Input (c1Velocity, c2Player)).2.overLadders ≠ ∅ :=
  ⟨by decide, (c2_ladder_engagement c2Input c1Velocity c2Player).2.2 (by decide)⟩

/-- Claim C4: the overlap set is exact set insertion on begin contacts and
exact set removal on end contacts with ladders, in delivery order: every
interleaving of begin(A), begin(B), end(A) (begin(A) before end(A)) from an
empty set ends with the singleton of B, and an end contact for an identifier
not in the set leaves the whole player state untouched. -/
theorem c4_ladder_set (tags : TagWorld) (pe A B : ℕ) (v : Velocity)
    (p : Player) (h0 : p.overLadders = ∅)
    (hA : tags.isLadder A = true) (hB : tags.isLadder B = true)
    (hAB : A ≠ B) :
    ([CollisionEvent.started pe A, .started pe B, .stopped pe A].foldl
        (processEvent tags pe) (v, p)).2.overLadders = {B}
    ∧ ([CollisionEvent.started pe A, .stopped pe A, .started pe B].foldl
        (processEvent tags pe) (v, p)).2.overLadders = {B}
    ∧ ([CollisionEvent.started pe B, .started pe A, .stopped pe A].foldl
        (processEvent tags pe) (v, p)).2.overLadders = {B}
    ∧ (∀ st : Velocity × Player, ∀ o : ℕ, o ∉ st.2.overLadders →
        processEvent tags pe st (.stopped pe o) = st) := by
  have hnoop : ∀ st : Velocity × Player, ∀ o : ℕ, o ∉ st.2.overLadders →
      processEvent tags pe st (.stopped pe o) = st := by
    rintro ⟨v', p'⟩ o ho
    rcases h : tags.isLadder o with _ | _
    · simp [processEvent, h]
    · simp only [processEvent, if_pos rfl, h, if_true]
      rw [Finset.erase_eq_of_not_mem ho]
  refine ⟨?_, ?_, ?_, hnoop⟩
  · simp [processEvent, hA, hB, h0,
      Finset.erase_insert_of_ne (Ne.symm hAB),
      Finset.erase_insert (Finset.not_mem_empty A)]
  · simp [processEvent, hA, hB, h0,
      Finset.erase_insert (Finset.not_mem_empty A)]
  · simp [processEvent, hA, hB, h0, hAB,
      Finset.erase_insert (show A ∉ insert B ∅ by simp [hAB])]

/-- Tag world for the witnesses: entities 10 and 20 are ladders, entity 30 is
a pad. -/
def cTags : TagWorld := ⟨fun n => n == 10 || n == 20, fun n => n == 30⟩

/-- A player with no overlapped ladder. -/
def c4Player : Player := ⟨false, false, ∅⟩

/-- Witness for claim C4 with ladders 10 and 20 and player entity 1. -/
theorem c4_witness :
    c4Player.overLadders = ∅ ∧ cTags.isLadder 10 = true
    ∧ cTags.isLadder 20 = true ∧ (10 : ℕ) ≠ 20
    ∧ ([CollisionEvent.started 1 10, .started 1 20, .stopped 1 10].foldl
        (processEvent cTags 1) (c1Velocity, c4Player)).2.overLadders = {20} :=
  ⟨by decide, by decide, by decide, by decide,
    (c4_ladder_set cTags 1 10 20 c1Velocity c4Player (by decide) (by decide)
      (by decide) (by decide)).1⟩

/-- Claim C5: a begin contact between the player and a pad sets the vertical
velocity to exactly 350 whatever value it held before, and a second pad begin
contact in the same batch performs the same write again (no debouncing). -/
theorem c5_pad_impulse (tags : TagWorld) (pe o q : ℕ) (st : Velocity × Player)
    (ho : tags.isPad o = true) (hq : tags.isPad q = true) :
    (processEvent tags pe st (.started pe o)).1.linear.y = 350
    ∧ (processEvent tags pe (processEvent tags pe st (.started pe o))
        (.started pe q)).1.linear.y = 350 := by
  constructor <;> simp [processEvent, ho, hq, Velocity.withY]

/-- Witness for claim C5 with pad entity 30, player entity 1 and a player
falling at −50. -/
theorem c5_witness :
    cTags.isPad 30 = true
    ∧ (processEvent cTags 1 (⟨⟨0, -50, 0⟩⟩, c4Player)
        (.started 1 30)).1.linear.y = 350 :=
  ⟨by decide,
    (c5_pad_impulse cTags 1 30 30 (⟨⟨0, -50, 0⟩⟩, c4Player) (by decide)
      (by decide)).1⟩

/-- Claim C6: tile classification is a pure total function matching the
table — code 1 gives a 9×9 box, Static body and friction 0.1; code 2 a 9×9
box, Sensor body and default material; code 3 a 9×5 box, Sensor body and
default material; every other code gives the default bundle (whose body
kind is Static); the player entity gives a 10×12 box with rotation
locked. -/
theorem c6_tile_classification :
    (collisionBundleOfIntGridCell 1).collisionShape = .cuboid ⟨9, 9, 0⟩ none
    ∧ (collisionBundleOfIntGridCell 1).rigidBody = .static
    ∧ (collisionBundleOfIntGridCell 1).physicMaterial.friction = 0.1
    ∧ (collisionBundleOfIntGridCell 2).collisionShape = .cuboid ⟨9, 9, 0⟩ none
    ∧ (collisionBundleOfIntGridCell 2).rigidBody = .sensor
    ∧ (collisionBundleOfIntGridCell 2).physicMaterial = PhysicMaterial.libDefault
    ∧ (collisionBundleOfIntGridCell 3).collisionShape = .cuboid ⟨9, 5, 0⟩ none
    ∧ (collisionBundleOfIntGridCell 3).rigidBody = .sensor
    ∧ (collisionBundleOfIntGridCell 3).physicMaterial = PhysicMaterial.libDefault
    ∧ CollisionBundle.libDefault.rigidBody = .static
    ∧ collisionBundleOfEntityInstance.collisionShape = .cuboid ⟨10, 12, 0⟩ none
    ∧ collisionBundleOfEntityInstance.rotationConstraints = RotationConstraints.lock
    ∧ (∀ value : ℤ, value ≠ 1 → value ≠ 2 → value ≠ 3 →
        collisionBundleOfIntGridCell value = CollisionBundle.libDefault) := by
  refine ⟨rfl, rfl, rfl, rfl, rfl, rfl, rfl, rfl, rfl, rfl, rfl, rfl, ?_⟩
  intro value h1 h2 h3
  simp [collisionBundleOfIntGridCell, h1, h2, h3]

/-- Witness for claim C6 at the representative unmapped codes 4, 0 and −1. -/
theorem c6_witness :
    (4 : ℤ) ≠ 1 ∧ (0 : ℤ) ≠ 1 ∧ (-1 : ℤ) ≠ 1
    ∧ collisionBundleOfIntGridCell 4 = CollisionBundle.libDefault
    ∧ collisionBundleOfIntGridCell 0 = CollisionBundle.libDefault
    ∧ collisionBundleOfIntGridCell (-1) = CollisionBundle.libDefault :=
  ⟨by decide, by decide, by decide,
    c6_tile_classification.2.2.2.2.2.2.2.2.2.2.2.2 4 (by decide) (by decide)
      (by decide),
    c6_tile_classification.2.2.2.2.2.2.2.2.2.2.2.2 0 (by decide) (by decide)
      (by decide),
    c6_tile_classification.2.2.2.2.2.2.2.2.2.2.2.2 (-1) (by decide) (by decide)
      (by decide)⟩

/-- Input with only D (move right) held. -/
def c7Input : InputState := ⟨true, false, false, false, false⟩

/-- A query row for `movement`: a resting player. -/
def c7Row : Velocity × Player := (⟨⟨0, 0, 0⟩⟩, ⟨false, false, ∅⟩)

/-- Claim C7, counterexample: with two player rows in the world the
`movement` system updates nothing — `get_single_mut` fails on multiple
matches — even though the same tick with a single row would have changed its
velocity; so "only the first matching player instance is updated if multiple
exist" is false. -/
theorem c7_counterexample :
    movementSystem c7Input [c7Row, c7Row] = [c7Row, c7Row]
    ∧ movementSystem c7Input [c7Row] ≠ [c7Row] := by
  refine ⟨rfl, fun hEq => ?_⟩
  have hx : movement c7Input c7Row = c7Row := by
    have h := congrArg List.head? hEq
    simpa [movementSystem, getSingle] using h
  have hy := congrArg (fun st : Velocity × Player => st.1.linear.x) hx
  simp only [movement] at hy
  rw [movementEngage_velocity, movementJump_velocity_x,
    movementClimb_velocity_x] at hy
  norm_num [movementHorizontal, Velocity.withX, c7Input, c7Row] at hy

/-- Claim C7, amended: whenever the number of matched player rows differs
from one — none, or several — each per-frame system (`movement`,
`ground_detection`, `ladder_and_pad_detection`) is a silent no-op for the
tick, changing no state; exactly one row is required for any update. -/
theorem c7_no_single_noop (inp : InputState) (w : PhysicsWorld)
    (tags : TagWorld) (events : List CollisionEvent)
    (ps1 : List (Velocity × Player)) (ps2 : List (Transform × Player))
    (ps3 : List (Velocity × Player × ℕ))
    (h1 : ps1.length ≠ 1) (h2 : ps2.length ≠ 1) (h3 : ps3.length ≠ 1) :
    movementSystem inp ps1 = ps1
    ∧ groundDetectionSystem w ps2 = ps2
    ∧ ladderAndPadDetection tags events ps3 = ps3 := by
  refine ⟨?_, ?_, ladderAndPadDetection_of_length_ne_one tags events ps3 h3⟩
  · rw [movementSystem, getSingle_eq_none ps1 h1]
  · rw [groundDetectionSystem, getSingle_eq_none ps2 h2]

/-- A physics world in which no ray ever hits. -/
def c7World : PhysicsWorld := ⟨fun _ _ _ => none⟩

/-- Witness for the amended claim C7 on player-less worlds. -/
theorem c7_witness :
    ([] : List (Velocity × Player)).length ≠ 1
    ∧ movementSystem c7Input [] = ([] : List (Velocity × Player))
    ∧ groundDetectionSystem c7World [] = ([] : List (Transform × Player))
    ∧ ladderAndPadDetection cTags [] ([] : List (Velocity × Player × ℕ)) = [] :=
  ⟨by decide,
    (c7_no_single_noop c7Input c7World cTags [] [] [] [] (by decide)
      (by decide) (by decide)).1,
    (c7_no_single_noop c7Input c7World cTags [] [] [] [] (by decide)
      (by decide) (by decide)).2.1,
    (c7_no_single_noop c7Input c7World cTags [] [] [] [] (by decide)
      (by decide) (by decide)).2.2⟩

/-- Claim C8: given level pixel size (w, h) and window aspect ww/wh, the
camera fitter pins bottom and left at 0 and: when the level aspect w/h is
below the window aspect, sets the vertical extent to h and the horizontal
extent to round(h × aspect); otherwise sets the horizontal extent to w and
the vertical extent to round(w / aspect); with no matching level loaded it
changes nothing. -/
theorem c8_fit_camera (ww wh : ℚ) (proj : OrthographicProjection) (w h : ℤ) :
    ((w : ℚ) / (h : ℚ) < ww / wh →
      fitCamera ww wh proj (some ⟨w, h⟩) =
        { proj with
          scalingMode := .scalingNone
          bottom := 0
          left := 0
          right := ((round ((h : ℚ) * (ww / wh)) : ℤ) : ℚ)
          top := (h : ℚ) })
    ∧ (¬ ((w : ℚ) / (h : ℚ) < ww / wh) →
      fitCamera ww wh proj (some ⟨w, h⟩) =
        { proj with
          scalingMode := .scalingNone
          bottom := 0
          left := 0
          top := ((round ((w : ℚ) / (ww / wh)) : ℤ) : ℚ)
          right := (w : ℚ) })
    ∧ fitCamera ww wh proj none = proj := by
  refine ⟨fun hlt => ?_, fun hge => ?_, rfl⟩
  · simp [fitCamera, hlt]
  · simp [fitCamera, hge]

/-- A camera projection before fitting. -/
def c8Proj : OrthographicProjection := ⟨0, 0, 0, 0, .windowSize⟩

/-- Witness for claim C8: the 320×180 level in a window of aspect 3 (level
narrower than window), giving top 180 and right round(180 × 3) = 540. -/
theorem c8_witness :
    ((320 : ℤ) : ℚ) / ((180 : ℤ) : ℚ) < (3 : ℚ) / (1 : ℚ)
    ∧ fitCamera 3 1 c8Proj (some ⟨320, 180⟩) =
      { c8Proj with
        scalingMode := .scalingNone
        bottom := 0
        left := 0
        right := ((round (((180 : ℤ) : ℚ) * ((3 : ℚ) / (1 : ℚ))) : ℤ) : ℚ)
        top := ((180 : ℤ) : ℚ) } :=
  ⟨by norm_num, (c8_fit_camera 3 1 c8Proj 320 180).1 (by norm_num)⟩

end Hppr
